import Mathlib

/-!
Verification of the WooCommerce dashboard (src/App.py) against its
natural-language specification.

The Python program is shallowly embedded: the `WooCommerceAPI` client class,
the custom-endpoint request path of `display_api_testing`, and the row-mapping
steps of `display_products` / `display_subscriptions` become Lean functions.
Python exceptions are modelled with `Except`; the HTTP transport
(the `requests` library) is modelled as a function from the built request to a
transport outcome (either a network-level error or a delivered HTTP response,
the final one after any redirect handling). Python dicts returned by the
client are modelled as a record with one optional field per key that any
branch of the code may populate.
-/

/-- JSON values, as produced by `response.json()` and `json.loads`.
Numbers are modelled as integers (every number appearing in the program's
requests is an integer). -/
inductive Json where
  | null : Json
  | bool (b : Bool) : Json
  | num (n : Int) : Json
  | str (s : String) : Json
  | arr (xs : List Json) : Json
  | obj (fields : List (String × Json)) : Json

/-- The four HTTP methods offered by the custom-endpoint tester. -/
inductive HttpMethod where
  | GET | POST | PUT | DELETE
deriving DecidableEq

/-- An outbound HTTP request as built by the program: `requests.get(url,
auth=..., params=...)` attaches `queryParams` to the URL query string, while
`requests.post(url, auth=..., json=...)` sends `jsonBody` as a JSON body. -/
structure Request where
  method : HttpMethod
  url : String
  auth : Option (String × String)
  queryParams : Option Json
  jsonBody : Option Json

/-- A delivered HTTP response (the final response the `requests` call returns,
after its default redirect handling). `bodyJson` is `some j` exactly when
`response.json()` succeeds, and `text` is `response.text`. -/
structure HttpResponse where
  status : Nat
  reason : String
  url : String
  headers : List (String × String)
  bodyJson : Option Json
  text : String

/-- Outcome of handing a request to the transport: either a delivered
response, or a network-level exception (connection, DNS, timeout, redirect
loop) raised by the `requests` call, carrying `str(e)`. -/
inductive TransportOutcome where
  | response (r : HttpResponse) : TransportOutcome
  | networkError (msg : String) : TransportOutcome

/-- Parse a nonempty list of decimal digits, as `int()` does. -/
def pyDigits : List Char → Option Nat
  | [] => none
  | [c] => if c.isDigit then some (c.toNat - 48) else none
  | c :: cs =>
    if c.isDigit then
      match pyDigits cs with
      | some n => some ((c.toNat - 48) * 10 ^ cs.length + n)
      | none => none
    else none

/-- Models Python `int(s)` on a string: surrounding whitespace is ignored, an
optional sign is followed by decimal digits; any other string raises
`ValueError` (modelled as `none`). -/
def pyInt (s : String) : Option Int :=
  let cs := ((s.data.dropWhile Char.isWhitespace).reverse.dropWhile
    Char.isWhitespace).reverse
  match cs with
  | '-' :: rest => (pyDigits rest).map (fun n => -(n : Int))
  | '+' :: rest => (pyDigits rest).map (fun n => (n : Int))
  | _ => (pyDigits cs).map (fun n => (n : Int))

/-- Lower-case an ASCII letter, as header-name folding does. -/
def lowerChar (c : Char) : Char :=
  if 65 ≤ c.toNat ∧ c.toNat ≤ 90 then Char.ofNat (c.toNat + 32) else c

/-- Lower-case a string character by character. -/
def lowerString (s : String) : String :=
  String.mk (s.data.map lowerChar)

/-- Models `response.headers.get(name)`: the headers of a `requests` response
are a case-insensitive mapping. -/
def headers_get (headers : List (String × String)) (name : String) :
    Option String :=
  (headers.find? (fun p => lowerString p.fst == lowerString name)).map
    Prod.snd

/-- The message of the `requests.exceptions.HTTPError` that
`raise_for_status` raises for a 4xx/5xx response. -/
def http_error_text (r : HttpResponse) : String :=
  if r.status < 500 then
    toString r.status ++ " Client Error: " ++ r.reason ++ " for url: " ++ r.url
  else
    toString r.status ++ " Server Error: " ++ r.reason ++ " for url: " ++ r.url

/-- Models `response.raise_for_status()`: raises exactly when the status code
is in the 4xx or 5xx range (400 ≤ status < 600); all other statuses,
including any 3xx that survives redirect handling, pass. -/
def raise_for_status (r : HttpResponse) : Except String Unit :=
  if 400 ≤ r.status ∧ r.status < 600 then Except.error (http_error_text r)
  else Except.ok ()

/-- The message of the JSON decode error `response.json()` raises when the
body is not valid JSON. Only its existence matters to the program, which
stringifies it into the failure dict. -/
def json_decode_error_text (_body : String) : String :=
  "Expecting value: line 1 column 1 (char 0)"

/-- Models `int(response.headers.get(name, default))`: the default is used
when the header is absent; a present header is parsed with `int()`, which
raises `ValueError` on a non-numeric value. -/
def header_int (r : HttpResponse) (name : String) (default : Int) :
    Except String Int :=
  match headers_get r.headers name with
  | none => Except.ok default
  | some s =>
    match pyInt s with
    | some n => Except.ok n
    | none =>
      Except.error ("invalid literal for int() with base 10: " ++ s)

/-- The dict shape returned by the client methods: Python builds plain dicts,
so each key any branch may populate is an optional field here. A key absent
from the dict is `none`. -/
structure PyDict where
  success : Bool
  data : Option Json
  total_pages : Option Int
  total_items : Option Int
  error : Option String
  message : Option String

/-- The success dict of `get_products` / `get_subscriptions` (App.py lines
67-72 and 86-91). -/
def successDict (d : Json) (tp ti : Int) : PyDict :=
  { success := true, data := some d, total_pages := some tp,
    total_items := some ti, error := none, message := none }

/-- The failure dict `\x7b'success': False, 'error': str(e)\x7d` returned by
every `except` branch of the client. -/
def failureDict (msg : String) : PyDict :=
  { success := false, data := none, total_pages := none, total_items := none,
    error := some msg, message := none }

/-- The success dict of `test_connection` (App.py line 101): it carries a
message and nothing else. -/
def connSuccessDict : PyDict :=
  { success := true, data := none, total_pages := none, total_items := none,
    error := none, message := some "Connection successful!" }

/-- Strip all trailing slash characters, as `base_url.rstrip('/')` does. -/
def rstrip_slashes (s : String) : String :=
  String.mk ((s.data.reverse.dropWhile (fun c => c == '/')).reverse)

/-- The `WooCommerceAPI` client object. -/
structure WooCommerceAPI where
  base_url : String
  consumer_key : String
  consumer_secret : String
  auth : String × String

/-- Models `WooCommerceAPI.__init__` (App.py lines 50-54): the base URL is
stored with all trailing slashes stripped, and `auth` is the
(consumer_key, consumer_secret) basic-auth pair. -/
def WooCommerceAPI.init (base_url consumer_key consumer_secret : String) :
    WooCommerceAPI :=
  { base_url := rstrip_slashes base_url,
    consumer_key := consumer_key,
    consumer_secret := consumer_secret,
    auth := (consumer_key, consumer_secret) }

/-- The body shared by `get_products` and `get_subscriptions` after the
request is issued (App.py lines 65-74 and 84-93, which are identical):
`raise_for_status`, then `response.json()`, then the two header parses, any
raised exception becoming the failure dict. -/
def wc_list_result : TransportOutcome → PyDict
  | TransportOutcome.networkError msg => failureDict msg
  | TransportOutcome.response r =>
    match raise_for_status r with
    | Except.error msg => failureDict msg
    | Except.ok _ =>
      match r.bodyJson with
      | none => failureDict (json_decode_error_text r.text)
      | some d =>
        match header_int r "X-WP-TotalPages" 1 with
        | Except.error msg => failureDict msg
        | Except.ok tp =>
          match header_int r "X-WP-Total" 0 with
          | Except.error msg => failureDict msg
          | Except.ok ti => successDict d tp ti

/-- Models `WooCommerceAPI.get_products` (App.py lines 56-74). The transport
argument stands for the `requests` library; the returned list records the
requests issued by the call (exactly one). -/
def get_products (api : WooCommerceAPI) (per_page page : Int)
    (transport : Request → TransportOutcome) : List Request × PyDict :=
  let url := api.base_url ++ "/wp-json/wc/v3/products"
  let params := Json.obj [("per_page", Json.num per_page),
    ("page", Json.num page), ("status", Json.str "publish")]
  let req : Request :=
    { method := HttpMethod.GET, url := url, auth := some api.auth,
      queryParams := some params, jsonBody := none }
  ([req], wc_list_result (transport req))

/-- Models `WooCommerceAPI.get_subscriptions` (App.py lines 76-93): same as
`get_products` but endpoint `/subscriptions` and no status filter. -/
def get_subscriptions (api : WooCommerceAPI) (per_page page : Int)
    (transport : Request → TransportOutcome) : List Request × PyDict :=
  let url := api.base_url ++ "/wp-json/wc/v3/subscriptions"
  let params := Json.obj [("per_page", Json.num per_page),
    ("page", Json.num page)]
  let req : Request :=
    { method := HttpMethod.GET, url := url, auth := some api.auth,
      queryParams := some params, jsonBody := none }
  ([req], wc_list_result (transport req))

/-- Models `WooCommerceAPI.test_connection` (App.py lines 95-103): GET
`/system_status`, success decided purely by `raise_for_status`, body
discarded. -/
def test_connection (api : WooCommerceAPI)
    (transport : Request → TransportOutcome) : List Request × PyDict :=
  let url := api.base_url ++ "/wp-json/wc/v3/system_status"
  let req : Request :=
    { method := HttpMethod.GET, url := url, auth := some api.auth,
      queryParams := none, jsonBody := none }
  ([req],
    match transport req with
    | TransportOutcome.networkError msg => failureDict msg
    | TransportOutcome.response r =>
      match raise_for_status r with
      | Except.error msg => failureDict msg
      | Except.ok _ => connSuccessDict)

/-- Models Python `s.strip()`: remove whitespace from both ends. -/
def pyStrip (s : String) : String :=
  String.mk (((s.data.dropWhile Char.isWhitespace).reverse.dropWhile
    Char.isWhitespace).reverse)

/-- The body the custom-endpoint tester displays on a 2xx/3xx response:
`response.json()` when it parses, `response.text` otherwise (App.py lines
433-437). -/
inductive RawBody where
  | jsonBody (j : Json) : RawBody
  | textBody (s : String) : RawBody

/-- What the custom-endpoint tester renders after the try block (App.py lines
428-445): success with status code and body for status < 400, a failure with
status code and raw text for status ≥ 400, the dedicated invalid-JSON
message for a `json.JSONDecodeError` from `json.loads`, or the generic
error message for any other exception. -/
inductive RawOutcome where
  | ok (statusCode : Nat) (body : RawBody) : RawOutcome
  | httpFailure (statusCode : Nat) (text : String) : RawOutcome
  | parseError (msg : String) : RawOutcome
  | otherError (msg : String) : RawOutcome

/-- The request the custom-endpoint tester builds for each method (App.py
lines 419-426): GET and DELETE pass the parsed parameters as `params=` (URL
query string), POST and PUT pass them as `json=` (JSON request body). -/
def build_raw_request (api : WooCommerceAPI) (endpoint : String)
    (method : HttpMethod) (request_params : Json) : Request :=
  let url := api.base_url ++ "/wp-json/wc/v3/" ++ endpoint
  match method with
  | HttpMethod.GET =>
    { method := HttpMethod.GET, url := url, auth := some api.auth,
      queryParams := some request_params, jsonBody := none }
  | HttpMethod.POST =>
    { method := HttpMethod.POST, url := url, auth := some api.auth,
      queryParams := none, jsonBody := some request_params }
  | HttpMethod.PUT =>
    { method := HttpMethod.PUT, url := url, auth := some api.auth,
      queryParams := none, jsonBody := some request_params }
  | HttpMethod.DELETE =>
    { method := HttpMethod.DELETE, url := url, auth := some api.auth,
      queryParams := some request_params, jsonBody := none }

/-- Models the try block of the custom-endpoint form handler
(App.py lines 409-445). `loads` stands for the outcome of
`json.loads(paramsText)` — `Except.error` when the text is not valid JSON
(a `json.JSONDecodeError`). The handler only calls it when the stripped
parameter text is nonempty; otherwise the parameters are the empty dict.
The returned list records the requests issued. -/
def raw_request (api : WooCommerceAPI) (endpoint : String)
    (method : HttpMethod) (paramsText : String) (loads : Except String Json)
    (transport : Request → TransportOutcome) : List Request × RawOutcome :=
  match (if pyStrip paramsText ≠ "" then loads else Except.ok (Json.obj [])) with
  | Except.error _ => ([], RawOutcome.parseError "Invalid JSON in parameters")
  | Except.ok request_params =>
    let req := build_raw_request api endpoint method request_params
    match transport req with
    | TransportOutcome.networkError msg =>
      ([req], RawOutcome.otherError ("Error: " ++ msg))
    | TransportOutcome.response r =>
      if r.status < 400 then
        ([req], RawOutcome.ok r.status
          (match r.bodyJson with
           | some j => RawBody.jsonBody j
           | none => RawBody.textBody r.text))
      else
        ([req], RawOutcome.httpFailure r.status r.text)

/-- Models how `requests` encodes a flat JSON object passed as `params=`
into a URL query string (keys and unreserved values need no percent
escaping). -/
def queryPrimStr : Json → String
  | Json.str s => s
  | Json.num n => toString n
  | Json.bool b => cond b "True" "False"
  | _ => ""

/-- Encode a params object as the query string `k1=v1&k2=v2`. -/
def encodeQueryString : Json → String
  | Json.obj fields =>
    String.intercalate "&"
      (fields.map (fun p => p.fst ++ "=" ++ queryPrimStr p.snd))
  | _ => ""

/-- A product category as returned by the platform. -/
structure Category where
  name : String

/-- A product object, with the fields the products table reads. Fields the
code accesses with `.get(..., default)` are optional. -/
structure Product where
  id : Int
  name : String
  typ : String
  status : String
  price : String
  stock_quantity : Option Int
  categories : List Category
  date_created : String

/-- A table cell that is either a Python int or a string, as the
stock column mixes `stock_quantity` ints with the string "N/A". -/
inductive PyCell where
  | intVal (n : Int) : PyCell
  | strVal (s : String) : PyCell

/-- Models `datetime.fromisoformat(s.replace("Z", "+00:00")).strftime("%Y-%m-%d")`
for a valid ISO-8601 datetime string `YYYY-MM-DDTHH:MM:SS...`: the formatted
result is the 10-character date part that starts the string. -/
def strftime_date (s : String) : String := s.take 10

/-- A row of the products table. -/
structure ProductRow where
  id : Int
  name : String
  typ : String
  status : String
  price : String
  stock : PyCell
  categories : String
  dateCreated : String

/-- Models the product row-mapping step (App.py lines 223-235): price is
`"$" + price` when the price string is truthy (nonempty) and `"Free"`
otherwise, stock falls back to "N/A", category names are joined with
`", "`. -/
def product_row (p : Product) : ProductRow :=
  { id := p.id,
    name := p.name,
    typ := p.typ,
    status := p.status,
    price := if p.price ≠ "" then "$" ++ p.price else "Free",
    stock := match p.stock_quantity with
      | some n => PyCell.intVal n
      | none => PyCell.strVal "N/A",
    categories := String.intercalate ", " (p.categories.map Category.name),
    dateCreated := strftime_date p.date_created }

/-- The billing object of a subscription. -/
structure Billing where
  first_name : String
  last_name : String
  email : String

/-- A subscription object, with the fields the subscriptions table reads.
`next_payment_date` is read with `.get(..., "N/A")`, so it is optional. -/
structure Subscription where
  id : Int
  status : String
  total : String
  currency : String
  billing : Billing
  date_created : String
  next_payment_date : Option String

/-- A row of the subscriptions table. -/
structure SubscriptionRow where
  id : Int
  status : String
  total : String
  customer : String
  email : String
  startDate : String
  nextPayment : String

/-- Models the subscription row-mapping step (App.py lines 315-326):
`next_payment_date` falls back to "N/A" when the field is missing. -/
def subscription_row (s : Subscription) : SubscriptionRow :=
  { id := s.id,
    status := s.status,
    total := "$" ++ s.total,
    customer := s.billing.first_name ++ " " ++ s.billing.last_name,
    email := s.billing.email,
    startDate := strftime_date s.date_created,
    nextPayment := s.next_payment_date.getD "N/A" }

/-- An expected failure condition at the transport: a network-level error,
or a delivered response with a 4xx/5xx status (authentication failures are
401 responses). -/
def expected_failure : TransportOutcome → Bool
  | TransportOutcome.networkError _ => true
  | TransportOutcome.response r =>
    decide (400 ≤ r.status) && decide (r.status < 600)

/-- Well-formedness of a list-endpoint result dict: on success it has data
and both page counts and no error or message; on failure only an error. -/
def listResultWF (r : PyDict) : Bool :=
  if r.success then
    r.data.isSome && r.total_pages.isSome && r.total_items.isSome &&
      r.error.isNone && r.message.isNone
  else
    r.error.isSome && r.data.isNone && r.total_pages.isNone &&
      r.total_items.isNone && r.message.isNone

/-- Well-formedness of a `test_connection` result dict: on success only a
message; on failure only an error. -/
def connResultWF (r : PyDict) : Bool :=
  if r.success then
    r.message.isSome && r.data.isNone && r.total_pages.isNone &&
      r.total_items.isNone && r.error.isNone
  else
    r.error.isSome && r.data.isNone && r.total_pages.isNone &&
      r.total_items.isNone && r.message.isNone

/-- Whether a string ends in a slash character. -/
def ends_with_slash (s : String) : Bool :=
  s.data.getLast? == some '/'

/-- A fixture client built with example credentials. -/
def apiEx : WooCommerceAPI :=
  WooCommerceAPI.init "https://example.com" "ck_key" "cs_secret"

/-- A fixture 200 response with numeric pagination headers and a JSON body. -/
def respHeadersNum : HttpResponse :=
  { status := 200, reason := "OK",
    url := "https://example.com/wp-json/wc/v3/products",
    headers := [("X-WP-TotalPages", "5"), ("X-WP-Total", "42")],
    bodyJson := some (Json.arr []), text := "[]" }

/-- A fixture 200 response whose pagination header is present but not
numeric. -/
def respBadHeader : HttpResponse :=
  { status := 200, reason := "OK",
    url := "https://example.com/wp-json/wc/v3/products",
    headers := [("X-WP-TotalPages", "abc")],
    bodyJson := some (Json.arr []), text := "[]" }

/-- A fixture 300 response (a non-redirected 3xx) with a JSON body and no
pagination headers. -/
def resp300 : HttpResponse :=
  { status := 300, reason := "Multiple Choices",
    url := "https://example.com/wp-json/wc/v3/products",
    headers := [], bodyJson := some (Json.arr []), text := "[]" }

/-- A fixture 404 response. -/
def resp404 : HttpResponse :=
  { status := 404, reason := "Not Found",
    url := "https://example.com/wp-json/wc/v3/products",
    headers := [], bodyJson := none, text := "Not Found" }

/-- A fixture 200 response with a JSON body, used by the raw-request
claims. -/
def resp200list : HttpResponse :=
  { status := 200, reason := "OK",
    url := "https://example.com/wp-json/wc/v3/products",
    headers := [], bodyJson := some (Json.arr []), text := "[]" }

/-- C1 (amended): for every 2xx response whose body parses as JSON and whose
pagination headers are each absent or numeric, `get_products` returns the
success dict with the body, with `total_pages` / `total_items` taken from the
headers, defaulting to 1 / 0 when a header is absent. (The original claim
also promised the defaults for a present-but-non-numeric header; the code
instead fails there, see the counterexample.) -/
theorem c1_success_header_parsing (api : WooCommerceAPI) (pp pg : Int)
    (r : HttpResponse) (d : Json) (tp ti : Int)
    (hlo : 200 ≤ r.status) (hhi : r.status < 300)
    (hbody : r.bodyJson = some d)
    (htp : header_int r "X-WP-TotalPages" 1 = Except.ok tp)
    (hti : header_int r "X-WP-Total" 0 = Except.ok ti) :
    (get_products api pp pg (fun _ => TransportOutcome.response r)).2
      = successDict d tp ti
    ∧ (headers_get r.headers "X-WP-TotalPages" = none → tp = 1)
    ∧ (headers_get r.headers "X-WP-Total" = none → ti = 0) := by
  have hrfs : raise_for_status r = Except.ok () := by
    unfold raise_for_status
    rw [if_neg (by omega : ¬(400 ≤ r.status ∧ r.status < 600))]
  refine ⟨?_, ?_, ?_⟩
  · show wc_list_result (TransportOutcome.response r) = successDict d tp ti
    simp only [wc_list_result, hrfs, hbody, htp, hti]
  · intro h
    simp only [header_int, h] at htp
    exact (Except.ok.inj htp).symm
  · intro h
    simp only [header_int, h] at hti
    exact (Except.ok.inj hti).symm

/-- Witness for C1: a concrete 200 response with headers "5" and "42" gives
the success dict with page counts 5 and 42. -/
theorem c1_witness :
    (get_products apiEx 10 1
        (fun _ => TransportOutcome.response respHeadersNum)).2
      = successDict (Json.arr []) 5 42 :=
  (c1_success_header_parsing apiEx 10 1 respHeadersNum (Json.arr []) 5 42
    (by decide) (by decide) rfl rfl rfl).1

/-- Counterexample to C1 as stated: for a 2xx response whose
`X-WP-TotalPages` header is present but non-numeric ("abc"), the code does
not default the count to 1 — `int()` raises inside the try block and the
call returns the failure dict. -/
theorem c1_counterexample :
    200 ≤ respBadHeader.status ∧ respBadHeader.status < 300
    ∧ (get_products apiEx 10 1
        (fun _ => TransportOutcome.response respBadHeader)).2
      = failureDict "invalid literal for int() with base 10: abc"
    ∧ (get_products apiEx 10 1
        (fun _ => TransportOutcome.response respBadHeader)).2.success
      = false :=
  ⟨by decide, by decide, rfl, rfl⟩

/-- C2 (amended): for every response whose status is in the 4xx/5xx range,
and likewise for every network error, `get_products` and
`get_subscriptions` return the failure dict carrying the underlying error
text (the `raise_for_status` message, respectively `str(e)` of the network
exception), and the dict has no data field. (The original claim extended
this to every non-2xx status including 3xx; a 3xx response that reaches the
client passes `raise_for_status`, see the counterexample.) -/
theorem c2_http_error_failure (api : WooCommerceAPI) (pp pg : Int)
    (r : HttpResponse) (hlo : 400 ≤ r.status) (hhi : r.status < 600) :
    (get_products api pp pg (fun _ => TransportOutcome.response r)).2
      = failureDict (http_error_text r)
    ∧ (get_subscriptions api pp pg (fun _ => TransportOutcome.response r)).2
      = failureDict (http_error_text r)
    ∧ (failureDict (http_error_text r)).data = none
    ∧ (failureDict (http_error_text r)).error = some (http_error_text r)
    ∧ (∀ msg : String,
        (get_products api pp pg
            (fun _ => TransportOutcome.networkError msg)).2
          = failureDict msg
        ∧ (get_subscriptions api pp pg
            (fun _ => TransportOutcome.networkError msg)).2
          = failureDict msg
        ∧ (failureDict msg).data = none
        ∧ (failureDict msg).error = some msg) := by
  have hrfs : raise_for_status r = Except.error (http_error_text r) := by
    unfold raise_for_status
    rw [if_pos ⟨hlo, hhi⟩]
  refine ⟨?_, ?_, rfl, rfl, fun msg => ⟨rfl, rfl, rfl, rfl⟩⟩
  · show wc_list_result (TransportOutcome.response r) = _
    simp only [wc_list_result, hrfs]
  · show wc_list_result (TransportOutcome.response r) = _
    simp only [wc_list_result, hrfs]

/-- Witness for C2: a concrete 404 produces the failure dict with the HTTP
error text. -/
theorem c2_witness :
    (get_products apiEx 10 1 (fun _ => TransportOutcome.response resp404)).2
      = failureDict (http_error_text resp404) :=
  (c2_http_error_failure apiEx 10 1 resp404 (by decide) (by decide)).1

/-- Counterexample to C2 as stated: a 300 response (not in the 2xx range)
with a JSON body is not turned into a failure — `raise_for_status` only
raises for 400-599, so the call returns the success dict. -/
theorem c2_counterexample :
    ¬ (200 ≤ resp300.status ∧ resp300.status < 300)
    ∧ (get_products apiEx 10 1 (fun _ => TransportOutcome.response resp300)).2
      = successDict (Json.arr []) 1 0
    ∧ (get_products apiEx 10 1
        (fun _ => TransportOutcome.response resp300)).2.success = true :=
  ⟨by decide, rfl, rfl⟩

/-- C3: for every expected failure condition at the transport — a network
error, or a delivered response with a 4xx/5xx status (auth failures are 401
responses) — each of `get_products`, `get_subscriptions` and
`test_connection` returns a failure dict value rather than letting the
exception escape: the dict has `success = False` and carries the error
message. The client functions are total (the catch-all except wraps every
raised exception into a value). -/
theorem c3_no_raise (api : WooCommerceAPI) (pp pg : Int)
    (out : TransportOutcome) (h : expected_failure out = true) :
    ((get_products api pp pg (fun _ => out)).2.success = false
      ∧ ((get_products api pp pg (fun _ => out)).2.error).isSome = true)
    ∧ ((get_subscriptions api pp pg (fun _ => out)).2.success = false
      ∧ ((get_subscriptions api pp pg (fun _ => out)).2.error).isSome = true)
    ∧ ((test_connection api (fun _ => out)).2.success = false
      ∧ ((test_connection api (fun _ => out)).2.error).isSome = true) := by
  cases out with
  | networkError msg => exact ⟨⟨rfl, rfl⟩, ⟨rfl, rfl⟩, ⟨rfl, rfl⟩⟩
  | response r =>
    have hr : 400 ≤ r.status ∧ r.status < 600 := by
      simpa [expected_failure] using h
    have hrfs : raise_for_status r = Except.error (http_error_text r) := by
      unfold raise_for_status
      rw [if_pos hr]
    refine ⟨⟨?_, ?_⟩, ⟨?_, ?_⟩, ⟨?_, ?_⟩⟩ <;>
      simp [get_products, get_subscriptions, test_connection, wc_list_result,
        hrfs, failureDict]

/-- Witness for C3: a concrete connection error yields failure values from
all three operations. -/
theorem c3_witness :
    expected_failure (TransportOutcome.networkError "Connection refused")
      = true
    ∧ (get_products apiEx 10 1
        (fun _ => TransportOutcome.networkError "Connection refused")).2.success
      = false :=
  ⟨rfl, ((c3_no_raise apiEx 10 1
    (TransportOutcome.networkError "Connection refused") rfl).1).1⟩

/-- C4 (amended): for every parameter text that is nonempty after stripping
whitespace and is not valid JSON (so `json.loads` raises), the
custom-endpoint handler reports the dedicated invalid-JSON message and
issues no HTTP request. (The original claim covered every non-empty text;
whitespace-only text is stripped to empty and skips parsing, see the
counterexample.) -/
theorem c4_parse_error_no_request (api : WooCommerceAPI) (endpoint : String)
    (method : HttpMethod) (paramsText e : String)
    (transport : Request → TransportOutcome)
    (hne : pyStrip paramsText ≠ "") :
    raw_request api endpoint method paramsText (Except.error e) transport
      = ([], RawOutcome.parseError "Invalid JSON in parameters") := by
  simp [raw_request, hne]

/-- Witness for C4: the spec's own example of malformed parameter text (an
unquoted key) yields the invalid-JSON outcome and no request. -/
theorem c4_witness :
    pyStrip "{per_page:10}" ≠ ""
    ∧ raw_request apiEx "products" HttpMethod.GET "{per_page:10}"
        (Except.error "Expecting property name enclosed in double quotes")
        (fun _ => TransportOutcome.response resp200list)
      = ([], RawOutcome.parseError "Invalid JSON in parameters") :=
  ⟨by decide, c4_parse_error_no_request apiEx "products" HttpMethod.GET
    "{per_page:10}" "Expecting property name enclosed in double quotes"
    (fun _ => TransportOutcome.response resp200list) (by decide)⟩

/-- Counterexample to C4 as stated: the single space " " is a non-empty
parameter text that is not valid JSON (`json.loads(" ")` raises), yet the
handler strips it to the empty string, skips parsing, and issues the request
with empty parameters instead of reporting a parse error. -/
theorem c4_counterexample :
    (" " : String) ≠ ""
    ∧ raw_request apiEx "products" HttpMethod.GET " "
        (Except.error "Expecting value: line 1 column 1 (char 0)")
        (fun _ => TransportOutcome.response resp200list)
      = ([build_raw_request apiEx "products" HttpMethod.GET (Json.obj [])],
         RawOutcome.ok 200 (RawBody.jsonBody (Json.arr []))) :=
  ⟨by decide, rfl⟩

/-- C5: for every endpoint and parsed JSON parameter object, the
custom-endpoint handler issues exactly one request built by
`build_raw_request`; with method GET or DELETE that request carries the
parameters as the URL query string and no body, and with POST or PUT it
carries them as the JSON request body and no query parameters. The example
object with per_page 10 encodes to the query string "per_page=10". -/
theorem c5_params_placement (api : WooCommerceAPI) (endpoint : String)
    (method : HttpMethod) (paramsText : String) (j : Json)
    (transport : Request → TransportOutcome)
    (hne : pyStrip paramsText ≠ "") :
    (raw_request api endpoint method paramsText (Except.ok j) transport).1
      = [build_raw_request api endpoint method j]
    ∧ ((method = HttpMethod.GET ∨ method = HttpMethod.DELETE) →
        (build_raw_request api endpoint method j).queryParams = some j
        ∧ (build_raw_request api endpoint method j).jsonBody = none)
    ∧ ((method = HttpMethod.POST ∨ method = HttpMethod.PUT) →
        (build_raw_request api endpoint method j).queryParams = none
        ∧ (build_raw_request api endpoint method j).jsonBody = some j)
    ∧ encodeQueryString (Json.obj [("per_page", Json.num 10)])
      = "per_page=10" := by
  refine ⟨?_, ?_, ?_, by decide⟩
  · simp only [raw_request, hne, ne_eq, not_false_iff, if_true]
    cases htr : transport (build_raw_request api endpoint method j) with
    | networkError msg => simp [htr]
    | response r =>
      by_cases h4 : r.status < 400 <;> simp [htr, h4]
  · rintro (rfl | rfl) <;> exact ⟨rfl, rfl⟩
  · rintro (rfl | rfl) <;> exact ⟨rfl, rfl⟩

/-- Witness for C5: a concrete GET with parameters \x7b"per_page": 10\x7d
issues one request carrying them as query parameters. -/
theorem c5_witness :
    pyStrip "\x7b\"per_page\": 10\x7d" ≠ ""
    ∧ (raw_request apiEx "products" HttpMethod.GET "\x7b\"per_page\": 10\x7d"
        (Except.ok (Json.obj [("per_page", Json.num 10)]))
        (fun _ => TransportOutcome.response resp200list)).1
      = [build_raw_request apiEx "products" HttpMethod.GET
          (Json.obj [("per_page", Json.num 10)])] :=
  ⟨by decide, (c5_params_placement apiEx "products" HttpMethod.GET
    "\x7b\"per_page\": 10\x7d" (Json.obj [("per_page", Json.num 10)])
    (fun _ => TransportOutcome.response resp200list) (by decide)).1⟩

/-- C6: for every credential triple and every page/per_page, `get_products`
issues exactly one GET request to `<base_url>/wp-json/wc/v3/products` with
basic auth (key, secret) and query parameters per_page, page and
status = "publish". -/
theorem c6_products_request (base key secret : String) (pp pg : Int)
    (transport : Request → TransportOutcome) :
    (get_products (WooCommerceAPI.init base key secret) pp pg transport).1
      = [{ method := HttpMethod.GET,
           url := (WooCommerceAPI.init base key secret).base_url
             ++ "/wp-json/wc/v3/products",
           auth := some (key, secret),
           queryParams := some (Json.obj [("per_page", Json.num pp),
             ("page", Json.num pg), ("status", Json.str "publish")]),
           jsonBody := none }] := rfl

/-- The `test_connection` result dict is well formed for every transport
outcome. -/
theorem conn_result_WF (out : TransportOutcome) :
    connResultWF (match out with
      | TransportOutcome.networkError msg => failureDict msg
      | TransportOutcome.response r =>
        match raise_for_status r with
        | Except.error msg => failureDict msg
        | Except.ok _ => connSuccessDict) = true := by
  cases out with
  | networkError msg => simp [connResultWF, failureDict]
  | response r =>
    cases hrfs : raise_for_status r with
    | error msg => simp [hrfs, connResultWF, failureDict]
    | ok u => simp [hrfs, connResultWF, connSuccessDict]

/-- The list-endpoint result dict is well formed for every transport
outcome. -/
theorem wc_list_result_WF (out : TransportOutcome) :
    listResultWF (wc_list_result out) = true := by
  cases out with
  | networkError msg => simp [wc_list_result, listResultWF, failureDict]
  | response r =>
    simp only [wc_list_result]
    cases raise_for_status r with
    | error msg => simp [listResultWF, failureDict]
    | ok u =>
      cases r.bodyJson with
      | none => simp [listResultWF, failureDict]
      | some d =>
        cases header_int r "X-WP-TotalPages" 1 with
        | error msg => simp [listResultWF, failureDict]
        | ok tp =>
          cases header_int r "X-WP-Total" 0 with
          | error msg => simp [listResultWF, failureDict]
          | ok ti => simp [listResultWF, successDict]

/-- C7 (amended): every dict returned by `get_products` or
`get_subscriptions` has exactly one variant populated — on success the data
and both page counts and no error or message, on failure only an error —
and every dict returned by `test_connection` carries only a message on
success and only an error on failure. (The original claim required data and
page counts on every successful operation; `test_connection` returns only a
message, see the counterexample.) -/
theorem c7_result_shape (api : WooCommerceAPI) (pp pg : Int)
    (transport : Request → TransportOutcome) :
    listResultWF (get_products api pp pg transport).2 = true
    ∧ listResultWF (get_subscriptions api pp pg transport).2 = true
    ∧ connResultWF (test_connection api transport).2 = true :=
  ⟨wc_list_result_WF _, wc_list_result_WF _, conn_result_WF _⟩

/-- A fixture 200 response for the connection test. -/
def resp200status : HttpResponse :=
  { status := 200, reason := "OK",
    url := "https://example.com/wp-json/wc/v3/system_status",
    headers := [], bodyJson := some (Json.obj []), text := "\x7b\x7d" }

/-- Counterexample to C7 as stated: a successful `test_connection` result
has `success = True` but carries no data and no page counts — only a
message — so not every successful client operation carries data,
totalPages and totalItems. -/
theorem c7_counterexample :
    (test_connection apiEx
      (fun _ => TransportOutcome.response resp200status)).2.success = true
    ∧ (test_connection apiEx
        (fun _ => TransportOutcome.response resp200status)).2.data = none
    ∧ (test_connection apiEx
        (fun _ => TransportOutcome.response resp200status)).2.total_pages
      = none
    ∧ (test_connection apiEx
        (fun _ => TransportOutcome.response resp200status)).2.total_items
      = none
    ∧ (test_connection apiEx
        (fun _ => TransportOutcome.response resp200status)).2.message
      = some "Connection successful!" :=
  ⟨rfl, rfl, rfl, rfl, rfl⟩

/-- C8: for every product whose price string is "9.99" and whose categories
are [\x7bname: "A"\x7d], the product row shows display price "$9.99" and
categories string "A" (names joined with ", "). -/
theorem c8_product_row (p : Product) (hprice : p.price = "9.99")
    (hcats : p.categories = [{ name := "A" }]) :
    (product_row p).price = "$9.99" ∧ (product_row p).categories = "A" := by
  constructor
  · show (if p.price ≠ "" then "$" ++ p.price else "Free") = "$9.99"
    rw [hprice]
    rfl
  · show String.intercalate ", " (p.categories.map Category.name) = "A"
    rw [hcats]
    rfl

/-- A fixture product matching the spec's example. -/
def productEx : Product :=
  { id := 1, name := "Widget", typ := "simple", status := "publish",
    price := "9.99", stock_quantity := some 3,
    categories := [{ name := "A" }],
    date_created := "2023-01-15T10:30:00Z" }

/-- Witness for C8: the fixture product maps to price "$9.99" and
categories "A". -/
theorem c8_witness :
    (product_row productEx).price = "$9.99"
    ∧ (product_row productEx).categories = "A" :=
  c8_product_row productEx rfl rfl

/-- C9: for every subscription without a `next_payment_date` field, the
mapped row shows "N/A" in the Next Payment column and every other column is
mapped from its field. -/
theorem c9_subscription_row (s : Subscription)
    (h : s.next_payment_date = none) :
    subscription_row s =
      { id := s.id, status := s.status, total := "$" ++ s.total,
        customer := s.billing.first_name ++ " " ++ s.billing.last_name,
        email := s.billing.email,
        startDate := strftime_date s.date_created,
        nextPayment := "N/A" } := by
  simp [subscription_row, h]

/-- A fixture subscription lacking `next_payment_date`. -/
def subscriptionEx : Subscription :=
  { id := 7, status := "active", total := "25.00", currency := "USD",
    billing := { first_name := "Ada", last_name := "Lovelace",
                 email := "ada@example.com" },
    date_created := "2023-02-01T08:00:00Z", next_payment_date := none }

/-- Witness for C9: the fixture subscription maps to a row whose Next
Payment column is "N/A". -/
theorem c9_witness :
    subscription_row subscriptionEx =
      { id := 7, status := "active", total := "$25.00",
        customer := "Ada Lovelace", email := "ada@example.com",
        startDate := "2023-02-01", nextPayment := "N/A" } :=
  c9_subscription_row subscriptionEx rfl

/-- Dropping a leading block of replicated characters satisfying the
predicate leaves `dropWhile` unchanged. -/
theorem dropWhile_replicate_append (p : Char → Bool) (a : Char)
    (h : p a = true) (n : Nat) (l : List Char) :
    (List.replicate n a ++ l).dropWhile p = l.dropWhile p := by
  induction n with
  | zero => rfl
  | succ k ih => simp [List.replicate_succ, List.dropWhile_cons, h, ih]

/-- The head surviving a `dropWhile` fails the predicate. -/
theorem head_dropWhile_false (p : Char → Bool) (l : List Char) (c : Char)
    (h : (l.dropWhile p).head? = some c) : p c = false := by
  induction l with
  | nil => simp [List.dropWhile] at h
  | cons a as ih =>
    by_cases hp : p a = true
    · rw [List.dropWhile_cons_of_pos hp] at h
      exact ih h
    · rw [List.dropWhile_cons_of_neg hp] at h
      simp at h
      rw [← h]
      exact Bool.not_eq_true _ |>.mp hp

/-- `rstrip` is unchanged by appending any number of trailing slashes. -/
theorem rstrip_slashes_append (b : String) (n : Nat) :
    rstrip_slashes (b ++ String.mk (List.replicate n '/')) =
      rstrip_slashes b := by
  unfold rstrip_slashes
  have hd : (b ++ String.mk (List.replicate n '/')).data
      = b.data ++ List.replicate n '/' := rfl
  rw [hd, List.reverse_append, List.reverse_replicate,
    dropWhile_replicate_append _ _ rfl]

/-- The result of `rstrip_slashes` never ends in a slash. -/
theorem rstrip_slashes_no_trailing (b : String) :
    ends_with_slash (rstrip_slashes b) = false := by
  unfold ends_with_slash rstrip_slashes
  rw [show (String.mk ((b.data.reverse.dropWhile
      (fun c => c == '/')).reverse)).data
    = (b.data.reverse.dropWhile (fun c => c == '/')).reverse from rfl]
  rw [List.getLast?_reverse]
  cases hh : (b.data.reverse.dropWhile (fun c => c == '/')).head? with
  | none => rfl
  | some c =>
    have hc := head_dropWhile_false _ _ c hh
    rw [show ((some c : Option Char) == some '/') = (c == '/') from rfl]
    exact hc

/-- C10: the constructor strips every trailing slash from the supplied base
URL, the stored base URL never ends in a slash, and the products request URL
is the normalized base URL immediately followed by "/wp-json/wc/v3/products"
regardless of how many trailing slashes the caller supplied. -/
theorem c10_base_url_normalized (b k sec : String) (n : Nat) (pp pg : Int)
    (transport : Request → TransportOutcome) :
    (WooCommerceAPI.init (b ++ String.mk (List.replicate n '/'))
        k sec).base_url
      = rstrip_slashes b
    ∧ ends_with_slash (rstrip_slashes b) = false
    ∧ (get_products (WooCommerceAPI.init
          (b ++ String.mk (List.replicate n '/')) k sec)
        pp pg transport).1.map Request.url
      = [rstrip_slashes b ++ "/wp-json/wc/v3/products"] := by
  have h2 : (WooCommerceAPI.init (b ++ String.mk (List.replicate n '/'))
      k sec).base_url = rstrip_slashes b := rstrip_slashes_append b n
  refine ⟨h2, rstrip_slashes_no_trailing b, ?_⟩
  show [(WooCommerceAPI.init (b ++ String.mk (List.replicate n '/'))
      k sec).base_url ++ "/wp-json/wc/v3/products"]
    = [rstrip_slashes b ++ "/wp-json/wc/v3/products"]
  rw [h2]
